import Mathlib

/-!
A shallow embedding of `src/main.py` (a FastAPI Slack bot) and proofs about it.

Modelling conventions:
- Python exceptions are values of `PyErr`; a function that can raise returns
  `Except PyErr α`.
- The Slack SDK client is an oracle (`SlackOracle`): each call site receives the
  call's outcome from the oracle, so theorems quantify over every possible
  behaviour of the external API.
- The Supabase REST fetch in `fetch_data_and_save_as_csv` is an oracle
  `http : String → List Record` giving, per table name, the parsed JSON array.
- The filesystem is an association list from path to file content; `open(mode='w')`
  truncates (writes a blank file), the CSV writer then writes header and rows.
- Python `str.replace` / `.strip()` / `.lower()` / substring `in` are implemented
  over `List Char` so every definition is kernel-executable.
-/

/-- The Python exceptions relevant to `main.py`: `SlackApiError` (carrying
`e.response['error']`), `KeyError` from dict indexing, `IndexError` from
`data[0]` on an empty list, and a catch-all for anything else. -/
inductive PyErr where
  | slackApiError (errorMessage : String)
  | keyError (key : String)
  | indexError
  | otherError (msg : String)
deriving DecidableEq, Repr

/-- A parsed JSON record (one element of the Supabase response array):
ordered key/value pairs, as Python dict preserves insertion order. -/
abbrev Record := List (String × String)

/-- Content of a file on disk as this program writes it: `blank` right after
`open(mode='w')` truncation, or a CSV with a header row and data rows. -/
inductive FileContent where
  | blank
  | csv (header : List String) (rows : List (List String))
deriving DecidableEq, Repr

/-- The filesystem: existing paths with their contents. -/
abbrev FS := List (String × FileContent)

/-- `open(path, mode='w')`: create or truncate, then the writes give `c`. -/
def fsWrite (fs : FS) (path : String) (c : FileContent) : FS :=
  (path, c) :: List.filter (fun p => !(p.1 == path)) fs

/-- `os.path.exists(path)`. -/
def fsExists (fs : FS) (path : String) : Bool :=
  List.any fs (fun p => p.1 == path)

/-- `os.remove(path)`. -/
def fsRemove (fs : FS) (path : String) : FS :=
  List.filter (fun p => !(p.1 == path)) fs

/-- Oracle for the Slack `WebClient`: `files_upload(channels, file, filename)`
returns `result['file']['permalink']` or raises; `chat_postMessage(channel, text)`
returns or raises. -/
structure SlackOracle where
  files_upload : String → String → String → Except PyErr String
  chat_postMessage : String → String → Except PyErr Unit

/-- `message_counts: Dict[str, int] = {}` — the module-level dict, created empty. -/
def message_counts : List (String × Nat) := []

/-- HTTP response as built by `Response(content=..., status_code=...)`. -/
structure HttpResponse where
  content : String
  status : Nat
deriving DecidableEq, Repr

/-- The `/message-count` handler. Returns the HTTP response (or a propagated
exception) together with the `(channel, text)` argument pair passed to
`chat_postMessage`. Only `SlackApiError` is caught by the `except` clause. -/
def message_count (counts : List (String × Nat)) (channel_id user_id : String)
    (oracle : SlackOracle) : Except PyErr HttpResponse × (String × String) :=
  let count := (counts.lookup user_id).getD 0
  let text := "Messages: " ++ toString count
  (match oracle.chat_postMessage channel_id text with
   | .ok _ => .ok ⟨"", 200⟩
   | .error (.slackApiError error_message) =>
       .ok ⟨"Error uploading file: " ++ error_message, 200⟩
   | .error e => .error e,
   (channel_id, text))

/-- `csv.DictWriter` row serialization: one value per fieldname, looked up in
the record (missing keys serialize as the empty default). -/
def rowValues (fieldnames : List String) (rec : Record) : List String :=
  fieldnames.map (fun k => ((List.lookup k rec).getD ""))

/-- `fetch_data_and_save_as_csv(table_name, filename)`: fetch the JSON array for
the table, open the file for writing (truncating it), derive the header from
`data[0].keys()` (an `IndexError` on an empty array, leaving the blank file
behind), write header and rows, and return the filename. -/
def fetch_data_and_save_as_csv (table_name filename : String)
    (http : String → List Record) (fs : FS) : Except PyErr String × FS :=
  let data := http table_name
  let fs1 := fsWrite fs filename .blank
  match data with
  | [] => (.error .indexError, fs1)
  | first :: rest =>
      let fieldnames := first.map Prod.fst
      (.ok filename,
       fsWrite fs1 filename (.csv fieldnames ((first :: rest).map (rowValues fieldnames))))

/-- Outcome of a background job: its normal return or propagated exception, the
chat messages actually posted, and the final filesystem. -/
structure JobOutcome where
  result : Except PyErr Unit
  posted : List (String × String)
  fs : FS
deriving Repr

/-- `handle_trips(channel_id)`: export the `trips` table to `trips.csv`, then
`try` upload and follow-up message, with a `finally` that removes the file if it
exists. There is no `except` clause: exceptions from the `try` body propagate
after the cleanup runs. -/
def handle_trips (oracle : SlackOracle) (http : String → List Record)
    (channel_id : String) (fs : FS) : JobOutcome :=
  match fetch_data_and_save_as_csv "trips" "trips.csv" http fs with
  | (.error e, fs1) => ⟨.error e, [], fs1⟩
  | (.ok csv_file, fs1) =>
      let tryOutcome : Except PyErr Unit × List (String × String) :=
        match oracle.files_upload channel_id csv_file "trips.csv" with
        | .error e => (.error e, [])
        | .ok file_link =>
            let text := "Trips data: <" ++ file_link ++ "|Download CSV>"
            match oracle.chat_postMessage channel_id text with
            | .error e => (.error e, [])
            | .ok _ => (.ok (), [(channel_id, text)])
      let fs2 := if fsExists fs1 csv_file then fsRemove fs1 csv_file else fs1
      ⟨tryOutcome.1, tryOutcome.2, fs2⟩

/-- `handle_users(channel_id)`: identical to `handle_trips` but for the `users`
table and `users.csv`. -/
def handle_users (oracle : SlackOracle) (http : String → List Record)
    (channel_id : String) (fs : FS) : JobOutcome :=
  match fetch_data_and_save_as_csv "users" "users.csv" http fs with
  | (.error e, fs1) => ⟨.error e, [], fs1⟩
  | (.ok csv_file, fs1) =>
      let tryOutcome : Except PyErr Unit × List (String × String) :=
        match oracle.files_upload channel_id csv_file "users.csv" with
        | .error e => (.error e, [])
        | .ok file_link =>
            let text := "Users data: <" ++ file_link ++ "|Download CSV>"
            match oracle.chat_postMessage channel_id text with
            | .error e => (.error e, [])
            | .ok _ => (.ok (), [(channel_id, text)])
      let fs2 := if fsExists fs1 csv_file then fsRemove fs1 csv_file else fs1
      ⟨tryOutcome.1, tryOutcome.2, fs2⟩

/-- Whether `pre` is a prefix of `l` (helper for substring search and replace). -/
def listIsPreOf : List Char → List Char → Bool
  | [], _ => true
  | _ :: _, [] => false
  | a :: as, b :: bs => a == b && listIsPreOf as bs

/-- Whether `needle` occurs as a contiguous substring of `l`. -/
def listHasSub (needle : List Char) : List Char → Bool
  | [] => listIsPreOf needle []
  | c :: rest => listIsPreOf needle (c :: rest) || listHasSub needle rest

/-- Python `needle in haystack` on strings: substring containment. -/
def strHasSub (haystack needle : String) : Bool :=
  listHasSub needle.data haystack.data

/-- Left-to-right non-overlapping replacement of the nonempty pattern
`p :: ps` by `rep`, as Python `str.replace` does. Structural recursion on a
fuel bounded by the input length (each step consumes at least one character),
so the definition reduces inside the kernel. -/
def replChars (p : Char) (ps rep : List Char) : Nat → List Char → List Char
  | 0, l => l
  | _ + 1, [] => []
  | fuel + 1, c :: rest =>
      if listIsPreOf (p :: ps) (c :: rest) then
        rep ++ replChars p ps rep fuel (rest.drop ps.length)
      else
        c :: replChars p ps rep fuel rest

/-- Python `s.replace(pat, rep)` (an empty pattern never occurs in `main.py`,
where the pattern is always the bot mention token). -/
def pyReplace (s pat rep : String) : String :=
  match pat.data with
  | [] => s
  | p :: ps => ⟨replChars p ps rep.data s.data.length s.data⟩

/-- Drop leading whitespace characters. -/
def dropLeadWhite : List Char → List Char
  | [] => []
  | c :: rest => if c.isWhitespace then dropLeadWhite rest else c :: rest

/-- Python `s.strip()`: remove leading and trailing whitespace. -/
def pyStrip (s : String) : String :=
  ⟨(dropLeadWhite ((dropLeadWhite s.data).reverse)).reverse⟩

/-- Python `s.lower()` (character-wise lowercasing). -/
def pyLower (s : String) : String :=
  ⟨s.data.map Char.toLower⟩

/-- `generate_ai_response(input_text)`: strip the bot mention and whitespace;
greetings short-circuit to a canned reply; otherwise the model-generation step
(the whole `try` body, modelled by the oracle `gen`) either returns a string or
raises, and any exception is converted to the fixed fallback string. -/
def generate_ai_response (BOT_ID : String) (gen : String → Except PyErr String)
    (input_text : String) : String :=
  let processed_text := pyStrip (pyReplace input_text ("<@" ++ BOT_ID ++ ">") "")
  if pyLower processed_text ∈ ["hello", "hi", "hey"] then
    "Hello! How can I assist you today?"
  else
    match gen processed_text with
    | .ok response => response
    | .error _ => "Sorry, I\x27m having trouble understanding."

/-- The `event` sub-object of an event-callback payload. Each field is `some v`
when the key is present; dict indexing a `none` field raises `KeyError`, and
`'bot_id' not in event` is `bot_id = none`. -/
structure SlackEvent where
  type : Option String
  bot_id : Option String
  text : Option String
  channel : Option String
deriving DecidableEq, Repr

/-- The JSON body POSTed to `/slack/events`. -/
structure EventBody where
  type : Option String
  challenge : Option String
  event : Option SlackEvent
deriving DecidableEq, Repr

/-- Observable effects of `process_event_data`: the texts passed to
`generate_ai_response` and the `(channel, text)` messages actually posted. -/
structure PTrace where
  genCalled : List String
  posted : List (String × String)
deriving DecidableEq, Repr

/-- `process_event_data(data)`: on an `event_callback` whose event is a
`message` without `bot_id`, check for the bot mention in the text, generate a
response and post it; only `SlackApiError` from the post is caught (and
logged). Dict indexing of missing keys raises `KeyError`, which propagates. -/
def process_event_data (BOT_ID : String) (gen : String → Except PyErr String)
    (oracle : SlackOracle) (data : EventBody) : Except PyErr Unit × PTrace :=
  match data.type with
  | none => (.error (.keyError "type"), ⟨[], []⟩)
  | some t =>
    if t = "event_callback" then
      match data.event with
      | none => (.error (.keyError "event"), ⟨[], []⟩)
      | some event =>
        match event.type with
        | none => (.error (.keyError "type"), ⟨[], []⟩)
        | some et =>
          if et = "message" ∧ event.bot_id = none then
            match event.text with
            | none => (.error (.keyError "text"), ⟨[], []⟩)
            | some txt =>
              if strHasSub txt ("<@" ++ BOT_ID ++ ">") then
                let response := generate_ai_response BOT_ID gen txt
                match event.channel with
                | none => (.error (.keyError "channel"), ⟨[txt], []⟩)
                | some ch =>
                  match oracle.chat_postMessage ch response with
                  | .ok _ => (.ok (), ⟨[txt], [(ch, response)]⟩)
                  | .error (.slackApiError _) => (.ok (), ⟨[txt], []⟩)
                  | .error e => (.error e, ⟨[txt], []⟩)
              else (.ok (), ⟨[], []⟩)
          else (.ok (), ⟨[], []⟩)
    else (.ok (), ⟨[], []⟩)

/-- The three response shapes of the `/slack/events` handler:
`Response(status_code=403)`, `JSONResponse({"challenge": v})`, and
`Response('', 200)`. -/
inductive SlackEventsResult where
  | forbidden
  | challengeEcho (v : String)
  | okEmpty
deriving DecidableEq, Repr

/-- The HTTP status code of each `/slack/events` response shape. -/
def SlackEventsResult.status : SlackEventsResult → Nat
  | .forbidden => 403
  | .challengeEcho _ => 200
  | .okEmpty => 200

/-- The `/slack/events` handler: reject when the `X-Slack-Signature` header is
absent (its value is otherwise never inspected), echo the challenge for
`url_verification` (indexing `body['challenge']`), else run
`process_event_data` and return an empty 200. -/
def slack_events (signature : Option String) (body : EventBody) (BOT_ID : String)
    (gen : String → Except PyErr String) (oracle : SlackOracle) :
    Except PyErr SlackEventsResult × PTrace :=
  match signature with
  | none => (.ok .forbidden, ⟨[], []⟩)
  | some _ =>
    if body.type = some "url_verification" then
      match body.challenge with
      | none => (.error (.keyError "challenge"), ⟨[], []⟩)
      | some v => (.ok (.challengeEcho v), ⟨[], []⟩)
    else
      match process_event_data BOT_ID gen oracle body with
      | (.ok _, tr) => (.ok .okEmpty, tr)
      | (.error e, tr) => (.error e, tr)

/-- The HTTP handlers and background jobs of `main.py`, as named in the source. -/
inductive Handler where
  | messageCount
  | trips
  | users
  | commands
  | slackEvents
  | handleTrips
  | handleUsers
deriving DecidableEq, Repr

/-- One program step: some handler or background job runs. Its effect on the
module-level `message_counts` dict is the identity for every handler, because
no statement in `main.py` assigns to `message_counts` or calls a mutating
method on it — the dict is only ever read (`message_counts.get`). -/
inductive CountsStep : List (String × Nat) → List (String × Nat) → Prop where
  | step (h : Handler) (c : List (String × Nat)) : CountsStep c c

/-- States of the `message_counts` dict reachable from process start by any
sequence of handler executions. -/
def ReachableCounts (c : List (String × Nat)) : Prop :=
  Relation.ReflTransGen CountsStep message_counts c

/-- A Slack oracle whose calls all succeed. -/
def oracleOkFx : SlackOracle :=
  ⟨fun _ _ _ => .ok "https://slack.example/F1", fun _ _ => .ok ()⟩

/-- A Slack oracle whose upload and post both raise `SlackApiError('some_error')`. -/
def oracleErrFx : SlackOracle :=
  ⟨fun _ _ _ => .error (.slackApiError "some_error"),
   fun _ _ => .error (.slackApiError "some_error")⟩

/-- A Slack oracle whose upload succeeds but whose message post raises
`SlackApiError('some_error')`. -/
def oraclePostErrFx : SlackOracle :=
  ⟨fun _ _ _ => .ok "https://slack.example/F1",
   fun _ _ => .error (.slackApiError "some_error")⟩

/-- A table-store oracle answering every table with one single-column record. -/
def httpOneFx : String → List Record := fun _ => [[("id", "1")]]

/-- A table-store oracle answering every table with an empty array. -/
def httpEmptyFx : String → List Record := fun _ => []

/-- A model-generation oracle that always raises. -/
def genErrFx : String → Except PyErr String := fun _ => .error (.otherError "oom")

/-- An event-callback body: a user message mentioning bot `U1` in channel `C1`. -/
def mentionBodyFx : EventBody :=
  ⟨some "event_callback", none, some ⟨some "message", none, some "<@U1> what is up", some "C1"⟩⟩

/-- An event-callback body: a message authored by a bot (`bot_id` present). -/
def botBodyFx : EventBody :=
  ⟨some "event_callback", none, some ⟨some "message", some "B999", some "<@U1> hi", some "C1"⟩⟩

/-- An event-callback body: a user message with no `text` key. -/
def noTextBodyFx : EventBody :=
  ⟨some "event_callback", none, some ⟨some "message", none, none, some "C1"⟩⟩

/-- A `url_verification` body carrying a challenge token. -/
def challengeBodyFx : EventBody :=
  ⟨some "url_verification", some "tok123", none⟩

theorem fsExists_fsWrite_self (fs : FS) (p : String) (c : FileContent) :
    fsExists (fsWrite fs p c) p = true := by
  simp [fsExists, fsWrite]

theorem fsExists_fsRemove_self (fs : FS) (p : String) :
    fsExists (fsRemove fs p) p = false := by
  simp only [fsExists, fsRemove, List.any_eq_false, List.mem_filter]
  intro x hx
  simpa using hx.2

/-- Claim C1: for every run of `handle_trips` or `handle_users` in which the
exporter returns a file path, the temporary CSV file is absent from the final
filesystem, for every behaviour of the upload and follow-up message (success
or any raised exception), since the `finally` block removes it. -/
theorem export_jobs_delete_temp_file (oracle : SlackOracle)
    (http : String → List Record) (channel_id : String) (fs : FS) :
    (∀ p, (fetch_data_and_save_as_csv "trips" "trips.csv" http fs).1 = .ok p →
      fsExists (handle_trips oracle http channel_id fs).fs "trips.csv" = false) ∧
    (∀ p, (fetch_data_and_save_as_csv "users" "users.csv" http fs).1 = .ok p →
      fsExists (handle_users oracle http channel_id fs).fs "users.csv" = false) := by
  constructor
  · intro p h
    cases hdata : http "trips" with
    | nil => simp [fetch_data_and_save_as_csv, hdata] at h
    | cons first rest =>
        simp [handle_trips, fetch_data_and_save_as_csv, hdata,
          fsExists_fsWrite_self, fsExists_fsRemove_self]
  · intro p h
    cases hdata : http "users" with
    | nil => simp [fetch_data_and_save_as_csv, hdata] at h
    | cons first rest =>
        simp [handle_users, fetch_data_and_save_as_csv, hdata,
          fsExists_fsWrite_self, fsExists_fsRemove_self]

theorem export_jobs_delete_temp_file_witness :
    ((fetch_data_and_save_as_csv "trips" "trips.csv" httpOneFx []).1 = .ok "trips.csv" ∧
      fsExists (handle_trips oracleErrFx httpOneFx "C" []).fs "trips.csv" = false) ∧
    ((fetch_data_and_save_as_csv "users" "users.csv" httpOneFx []).1 = .ok "users.csv" ∧
      fsExists (handle_users oracleOkFx httpOneFx "C" []).fs "users.csv" = false) :=
  ⟨⟨rfl, (export_jobs_delete_temp_file oracleErrFx httpOneFx "C" []).1 "trips.csv" rfl⟩,
   ⟨rfl, (export_jobs_delete_temp_file oracleOkFx httpOneFx "C" []).2 "users.csv" rfl⟩⟩

/-- Claim C2 counterexample: in `handle_trips` a `SlackApiError` raised by the
upload is NOT swallowed — the job function re-raises it instead of returning
normally (the `try` has only a `finally`, no `except`). -/
theorem background_job_reraises_slack_error_cex :
    oracleErrFx.files_upload "C" "trips.csv" "trips.csv" =
      .error (.slackApiError "some_error") ∧
    (handle_trips oracleErrFx httpOneFx "C" []).result =
      .error (.slackApiError "some_error") ∧
    (handle_trips oracleErrFx httpOneFx "C" []).result ≠ .ok () :=
  ⟨rfl, rfl, fun h => nomatch h⟩

/-- Claim C2 amended: a `SlackApiError` raised while posting the reply inside
`process_event_data` is caught and the function returns normally; but a
`SlackApiError` raised during the upload, or during the follow-up message
after a successful upload, of `handle_trips` or `handle_users` propagates out
of the job function (only the `finally` cleanup runs). -/
theorem slack_error_swallowed_only_in_event_processing
    (oracle : SlackOracle) (http : String → List Record) (channel_id : String)
    (fs : FS) (m : String) (BOT_ID : String)
    (gen : String → Except PyErr String) (data : EventBody) :
    (∀ ev txt ch, data.type = some "event_callback" → data.event = some ev →
      ev.type = some "message" → ev.bot_id = none → ev.text = some txt →
      strHasSub txt ("<@" ++ BOT_ID ++ ">") = true → ev.channel = some ch →
      oracle.chat_postMessage ch (generate_ai_response BOT_ID gen txt) =
        .error (.slackApiError m) →
      (process_event_data BOT_ID gen oracle data).1 = .ok ()) ∧
    (∀ p, (fetch_data_and_save_as_csv "trips" "trips.csv" http fs).1 = .ok p →
      oracle.files_upload channel_id "trips.csv" "trips.csv" =
        .error (.slackApiError m) →
      (handle_trips oracle http channel_id fs).result =
        .error (.slackApiError m)) ∧
    (∀ p file_link,
      (fetch_data_and_save_as_csv "trips" "trips.csv" http fs).1 = .ok p →
      oracle.files_upload channel_id "trips.csv" "trips.csv" = .ok file_link →
      oracle.chat_postMessage channel_id
          ("Trips data: <" ++ file_link ++ "|Download CSV>") =
        .error (.slackApiError m) →
      (handle_trips oracle http channel_id fs).result =
        .error (.slackApiError m)) ∧
    (∀ p, (fetch_data_and_save_as_csv "users" "users.csv" http fs).1 = .ok p →
      oracle.files_upload channel_id "users.csv" "users.csv" =
        .error (.slackApiError m) →
      (handle_users oracle http channel_id fs).result =
        .error (.slackApiError m)) ∧
    (∀ p file_link,
      (fetch_data_and_save_as_csv "users" "users.csv" http fs).1 = .ok p →
      oracle.files_upload channel_id "users.csv" "users.csv" = .ok file_link →
      oracle.chat_postMessage channel_id
          ("Users data: <" ++ file_link ++ "|Download CSV>") =
        .error (.slackApiError m) →
      (handle_users oracle http channel_id fs).result =
        .error (.slackApiError m)) := by
  refine ⟨?_, ?_, ?_, ?_, ?_⟩
  · intro ev txt ch hdt hdev het hbot htxt hsub hch hpost
    simp [process_event_data, hdt, hdev, het, hbot, htxt, hsub, hch, hpost]
  · intro p h hup
    cases hdata : http "trips" with
    | nil => simp [fetch_data_and_save_as_csv, hdata] at h
    | cons first rest =>
        simp [handle_trips, fetch_data_and_save_as_csv, hdata, hup]
  · intro p file_link h hup hpost
    cases hdata : http "trips" with
    | nil => simp [fetch_data_and_save_as_csv, hdata] at h
    | cons first rest =>
        simp [handle_trips, fetch_data_and_save_as_csv, hdata, hup, hpost]
  · intro p h hup
    cases hdata : http "users" with
    | nil => simp [fetch_data_and_save_as_csv, hdata] at h
    | cons first rest =>
        simp [handle_users, fetch_data_and_save_as_csv, hdata, hup]
  · intro p file_link h hup hpost
    cases hdata : http "users" with
    | nil => simp [fetch_data_and_save_as_csv, hdata] at h
    | cons first rest =>
        simp [handle_users, fetch_data_and_save_as_csv, hdata, hup, hpost]

theorem slack_error_swallowed_only_in_event_processing_witness :
    (process_event_data "U1" genErrFx oracleErrFx mentionBodyFx).1 = .ok () ∧
    (handle_trips oracleErrFx httpOneFx "C" []).result =
      .error (.slackApiError "some_error") ∧
    (handle_trips oraclePostErrFx httpOneFx "C" []).result =
      .error (.slackApiError "some_error") ∧
    (handle_users oracleErrFx httpOneFx "C" []).result =
      .error (.slackApiError "some_error") ∧
    (handle_users oraclePostErrFx httpOneFx "C" []).result =
      .error (.slackApiError "some_error") :=
  ⟨(slack_error_swallowed_only_in_event_processing oracleErrFx httpOneFx "C" []
      "some_error" "U1" genErrFx mentionBodyFx).1
      ⟨some "message", none, some "<@U1> what is up", some "C1"⟩
      "<@U1> what is up" "C1" rfl rfl rfl rfl rfl rfl rfl rfl,
   (slack_error_swallowed_only_in_event_processing oracleErrFx httpOneFx "C" []
      "some_error" "U1" genErrFx mentionBodyFx).2.1 "trips.csv" rfl rfl,
   (slack_error_swallowed_only_in_event_processing oraclePostErrFx httpOneFx "C" []
      "some_error" "U1" genErrFx mentionBodyFx).2.2.1 "trips.csv"
      "https://slack.example/F1" rfl rfl rfl,
   (slack_error_swallowed_only_in_event_processing oracleErrFx httpOneFx "C" []
      "some_error" "U1" genErrFx mentionBodyFx).2.2.2.1 "users.csv" rfl rfl,
   (slack_error_swallowed_only_in_event_processing oraclePostErrFx httpOneFx "C" []
      "some_error" "U1" genErrFx mentionBodyFx).2.2.2.2 "users.csv"
      "https://slack.example/F1" rfl rfl rfl⟩

theorem reachable_counts_is_initial (c : List (String × Nat))
    (h : ReachableCounts c) : c = message_counts := by
  induction h with
  | refl => rfl
  | tail _ st ih => cases st; exact ih

/-- Claim C3: in every reachable state of the program, the `/message-count`
handler passes the text `"Messages: 0"` to `chat_postMessage` for every user
identifier: `message_counts` starts empty and no handler ever inserts or
updates an entry, so the `.get(user_id, 0)` lookup always yields zero. -/
theorem message_count_posts_zero_for_every_user (c : List (String × Nat))
    (h : ReachableCounts c) (channel_id user_id : String) (oracle : SlackOracle) :
    (message_count c channel_id user_id oracle).2.2 = "Messages: 0" := by
  rw [reachable_counts_is_initial c h]
  have hz : (List.lookup user_id message_counts).getD 0 = 0 := by
    simp [message_counts]
  simp only [message_count, hz]
  rfl

theorem message_count_posts_zero_for_every_user_witness :
    (message_count message_counts "C" "U_never_seen" oracleOkFx).2.2 =
      "Messages: 0" :=
  message_count_posts_zero_for_every_user message_counts
    Relation.ReflTransGen.refl "C" "U_never_seen" oracleOkFx

/-- Claim C4: the `/message-count` handler replies HTTP 200 with an empty body
when the post succeeds, and HTTP 200 whose body is the inline error text
`"Error uploading file: <error>"` when the post raises `SlackApiError`; in
neither case does it return an error status or propagate the exception. -/
theorem message_count_always_200 (counts : List (String × Nat))
    (channel_id user_id : String) (oracle : SlackOracle) :
    (oracle.chat_postMessage channel_id
        ("Messages: " ++ toString ((counts.lookup user_id).getD 0)) = .ok () →
      (message_count counts channel_id user_id oracle).1 = .ok ⟨"", 200⟩) ∧
    (∀ m, oracle.chat_postMessage channel_id
        ("Messages: " ++ toString ((counts.lookup user_id).getD 0)) =
          .error (.slackApiError m) →
      (message_count counts channel_id user_id oracle).1 =
        .ok ⟨"Error uploading file: " ++ m, 200⟩) := by
  constructor
  · intro h
    simp [message_count, h]
  · intro m h
    simp [message_count, h]

theorem message_count_always_200_witness :
    (message_count [] "C" "U" oracleOkFx).1 = .ok ⟨"", 200⟩ ∧
    (message_count [] "C" "U" oracleErrFx).1 =
      .ok ⟨"Error uploading file: some_error", 200⟩ :=
  ⟨(message_count_always_200 [] "C" "U" oracleOkFx).1 rfl,
   (message_count_always_200 [] "C" "U" oracleErrFx).2 "some_error" rfl⟩

/-- Claim C5: a request to `/slack/events` without the `X-Slack-Signature`
header gets HTTP 403 and triggers no challenge echo, no generation, and no
posting; when the header is present its value is never inspected — the
handler's result is the same for every header value. -/
theorem slack_events_signature_presence_only (body : EventBody) (BOT_ID : String)
    (gen : String → Except PyErr String) (oracle : SlackOracle) :
    (slack_events none body BOT_ID gen oracle =
        (.ok .forbidden, ⟨[], []⟩) ∧
      SlackEventsResult.forbidden.status = 403) ∧
    (∀ s1 s2 : String, slack_events (some s1) body BOT_ID gen oracle =
        slack_events (some s2) body BOT_ID gen oracle) :=
  ⟨⟨rfl, rfl⟩, fun _ _ => rfl⟩

/-- Claim C6: with the signature header present, a `url_verification` body
whose challenge value is `v` gets the JSON response `{"challenge": v}`,
echoing `v` unmodified. -/
theorem slack_events_echoes_challenge (sig : String) (body : EventBody)
    (v BOT_ID : String) (gen : String → Except PyErr String)
    (oracle : SlackOracle) (ht : body.type = some "url_verification")
    (hc : body.challenge = some v) :
    slack_events (some sig) body BOT_ID gen oracle =
      (.ok (.challengeEcho v), ⟨[], []⟩) := by
  simp [slack_events, ht, hc]

theorem slack_events_echoes_challenge_witness :
    slack_events (some "sig") challengeBodyFx "U1" genErrFx oracleOkFx =
      (.ok (.challengeEcho "tok123"), ⟨[], []⟩) :=
  slack_events_echoes_challenge "sig" challengeBodyFx "tok123" "U1" genErrFx
    oracleOkFx rfl rfl

/-- Claim C7: an event whose `event` sub-object carries a `bot_id` never
triggers response generation or an outbound chat message: the trace of
`process_event_data` is empty for every such payload. -/
theorem bot_authored_message_never_answered (BOT_ID : String)
    (gen : String → Except PyErr String) (oracle : SlackOracle)
    (data : EventBody) (ev : SlackEvent) (b : String)
    (hev : data.event = some ev) (hbot : ev.bot_id = some b) :
    (process_event_data BOT_ID gen oracle data).2 = ⟨[], []⟩ := by
  unfold process_event_data
  cases hdt : data.type with
  | none => rfl
  | some t =>
      by_cases ht : t = "event_callback"
      · rw [hev]
        cases het : ev.type with
        | none => simp [ht, het]
        | some et => simp [ht, het, hbot]
      · simp [ht]

theorem bot_authored_message_never_answered_witness :
    (process_event_data "U1" genErrFx oracleOkFx botBodyFx).2 = ⟨[], []⟩ :=
  bot_authored_message_never_answered "U1" genErrFx oracleOkFx botBodyFx
    ⟨some "message", some "B999", some "<@U1> hi", some "C1"⟩ "B999" rfl rfl

/-- Claim C8: if the input text, after removing the bot mention token and
stripping surrounding whitespace, lower-cases to exactly `"hello"`, `"hi"` or
`"hey"`, `generate_ai_response` returns the fixed greeting reply; otherwise,
whenever the model-generation step raises any exception, it returns the fixed
fallback string instead of propagating. -/
theorem generate_ai_response_greeting_and_fallback (BOT_ID : String)
    (gen : String → Except PyErr String) (input_text : String) :
    (pyLower (pyStrip (pyReplace input_text ("<@" ++ BOT_ID ++ ">") "")) ∈
        (["hello", "hi", "hey"] : List String) →
      generate_ai_response BOT_ID gen input_text =
        "Hello! How can I assist you today?") ∧
    (pyLower (pyStrip (pyReplace input_text ("<@" ++ BOT_ID ++ ">") "")) ∉
        (["hello", "hi", "hey"] : List String) →
      ∀ e, gen (pyStrip (pyReplace input_text ("<@" ++ BOT_ID ++ ">") "")) =
          .error e →
      generate_ai_response BOT_ID gen input_text =
        "Sorry, I\x27m having trouble understanding.") := by
  constructor
  · intro h
    simp [generate_ai_response, h]
  · intro h e hg
    simp [generate_ai_response, h, hg]

theorem generate_ai_response_greeting_and_fallback_witness :
    generate_ai_response "U1" genErrFx " <@U1> Hello " =
      "Hello! How can I assist you today?" ∧
    generate_ai_response "U1" genErrFx "tell me a joke" =
      "Sorry, I\x27m having trouble understanding." :=
  ⟨(generate_ai_response_greeting_and_fallback "U1" genErrFx " <@U1> Hello ").1
      (by decide),
   (generate_ai_response_greeting_and_fallback "U1" genErrFx "tell me a joke").2
      (by decide) (.otherError "oom") rfl⟩

/-- Claim C9: `fetch_data_and_save_as_csv` raises `IndexError` whenever the
parsed JSON array is empty (the header comes from `data[0].keys()`): it does
not return normally, and the opened file is left truncated with no CSV content
written. -/
theorem fetch_empty_array_raises_index_error (table_name filename : String)
    (http : String → List Record) (fs : FS) (h : http table_name = []) :
    (fetch_data_and_save_as_csv table_name filename http fs).1 =
        .error .indexError ∧
    (∀ s, (fetch_data_and_save_as_csv table_name filename http fs).1 ≠ .ok s) ∧
    (fetch_data_and_save_as_csv table_name filename http fs).2 =
      fsWrite fs filename .blank := by
  refine ⟨?_, ?_, ?_⟩ <;> simp [fetch_data_and_save_as_csv, h]

theorem fetch_empty_array_raises_index_error_witness :
    httpEmptyFx "trips" = [] ∧
    (fetch_data_and_save_as_csv "trips" "trips.csv" httpEmptyFx []).1 =
        .error .indexError ∧
    (fetch_data_and_save_as_csv "trips" "trips.csv" httpEmptyFx []).1 ≠
        .ok "trips.csv" ∧
    (fetch_data_and_save_as_csv "trips" "trips.csv" httpEmptyFx []).2 =
      fsWrite [] "trips.csv" .blank :=
  ⟨rfl,
   (fetch_empty_array_raises_index_error "trips" "trips.csv" httpEmptyFx [] rfl).1,
   (fetch_empty_array_raises_index_error "trips" "trips.csv" httpEmptyFx [] rfl).2.1
     "trips.csv",
   (fetch_empty_array_raises_index_error "trips" "trips.csv" httpEmptyFx [] rfl).2.2⟩

/-- Claim C10: an `event_callback` whose event is a `message` with no `bot_id`
and no `text` key makes `process_event_data` raise `KeyError` at the
`event['text']` indexing; the exception propagates, so `/slack/events` does
not produce its normal 200 response for such a payload. -/
theorem missing_text_key_raises_key_error (sig : String) (body : EventBody)
    (ev : SlackEvent) (BOT_ID : String) (gen : String → Except PyErr String)
    (oracle : SlackOracle)
    (h1 : body.type = some "event_callback") (h2 : body.event = some ev)
    (h3 : ev.type = some "message") (h4 : ev.bot_id = none)
    (h5 : ev.text = none) :
    (process_event_data BOT_ID gen oracle body).1 = .error (.keyError "text") ∧
    (slack_events (some sig) body BOT_ID gen oracle).1 =
      .error (.keyError "text") := by
  have hp : process_event_data BOT_ID gen oracle body =
      (.error (.keyError "text"), ⟨[], []⟩) := by
    simp [process_event_data, h1, h2, h3, h4, h5]
  constructor
  · rw [hp]
  · simp [slack_events, h1, hp]

theorem missing_text_key_raises_key_error_witness :
    (process_event_data "U1" genErrFx oracleOkFx noTextBodyFx).1 =
        .error (.keyError "text") ∧
    (slack_events (some "sig") noTextBodyFx "U1" genErrFx oracleOkFx).1 =
      .error (.keyError "text") :=
  missing_text_key_raises_key_error "sig" noTextBodyFx
    ⟨some "message", none, none, some "C1"⟩ "U1" genErrFx oracleOkFx
    rfl rfl rfl rfl rfl
